import Mathlib

/-!
Verification of the process-supervision and event-streaming core of the
`mars` desktop shell (`src/backend/opencode_client.py`).

The Python code is shallowly embedded: each method becomes a pure Lean
function over an explicit environment record that stands for the external
world (filesystem, environment variables, HTTP responses, process spawning).
External library calls (`json.loads`, `os.path.isdir`, `requests.get`, ...)
are parameters of the embedding; the control flow and data handling of the
repository's own code is translated line by line.
-/

namespace Mars

/-- JSON values as produced by `json.loads`: objects are association lists
(keys unique, as in a Python dict), arrays, strings, numbers, booleans, null.
Numbers are modelled as integers; no claim depends on fractional values. -/
inductive JValue where
  | null : JValue
  | bool (b : Bool) : JValue
  | num (n : Int) : JValue
  | str (s : String) : JValue
  | arr (xs : List JValue) : JValue
  | obj (fields : List (String × JValue)) : JValue

/-- Dictionary lookup on a decoded JSON object, as in Python `data["payload"]`
and `"payload" in data` (keys of a `json.loads` result are unique). -/
def lookupField : List (String × JValue) → String → Option JValue
  | [], _ => none
  | (k, v) :: rest, key => if k = key then some v else lookupField rest key

/-- Whether a decoded JSON value is an object (a Python `dict`).  Calling
`.get` on any non-dict value raises `AttributeError` in Python. -/
def JValue.isObj : JValue → Bool
  | .obj _ => true
  | _ => false

/-- How `listen_events` terminates: `disconnected` when `readline` returns an
empty read (peer closed) or manifest lines run out, `crashed` when an uncaught
exception inside the read loop reaches the outer handler (which logs, closes
the socket, and ends the generator). -/
inductive StreamEnd where
  | disconnected : StreamEnd
  | crashed : StreamEnd
deriving DecidableEq, Repr

/-- Python `str.strip()`: remove leading and trailing whitespace.  Implemented
on the character list so it evaluates by kernel reduction. -/
def pyStrip (s : String) : String :=
  ⟨((s.data.dropWhile Char.isWhitespace).reverse.dropWhile Char.isWhitespace).reverse⟩

/-- Python `s.startswith(pre)`. -/
def pyStartsWith (s pre : String) : Bool :=
  pre.data.isPrefixOf s.data

/-- Python character slicing `s[n:]`. -/
def pyDropChars (s : String) (n : Nat) : String :=
  ⟨s.data.drop n⟩

/-- The event emitted for one well-formed `data: ` line of `listen_events`:
the value of the `payload` field when the decoded object has one, otherwise
the whole decoded object (lines 454-457 of `opencode_client.py`). -/
def emitEvent (fields : List (String × JValue)) : JValue :=
  match lookupField fields "payload" with
  | some p => p
  | none => JValue.obj fields

/-- The SSE body loop of `OpenCodeClient.listen_events` (lines 436-459),
parameterised by `loads`, the external `json.loads` (`none` = raised
`json.JSONDecodeError`).  Input is the list of raw lines read after the HTTP
headers; output is the list of yielded events and how the stream ended.
An empty read breaks the loop; each line is stripped; lines not starting with
`data: ` are ignored; a line whose JSON fails to decode is logged and skipped;
a line decoding to a non-object crashes at `data.get` (`AttributeError` is not
caught by the per-line `except json.JSONDecodeError` handler), ending the
stream; an object is emitted via `emitEvent`. -/
def processLines (loads : String → Option JValue) : List String → List JValue × StreamEnd
  | [] => ([], .disconnected)
  | line :: rest =>
    if line = "" then ([], .disconnected)
    else
      let l := pyStrip line
      if pyStartsWith l "data: " then
        match loads (pyDropChars l 6) with
        | none => processLines loads rest
        | some (.obj fields) =>
          let r := processLines loads rest
          (emitEvent fields :: r.1, r.2)
        | some _ => ([], .crashed)
      else processLines loads rest

/-- The header-skipping loop of `listen_events` (lines 430-433): discard raw
lines until a bare line terminator or an empty read is seen. -/
def skipHeaders : List String → List String
  | [] => []
  | l :: rest => if l = "\r\n" || l = "\n" || l = "" then rest else skipHeaders rest

/-- `OpenCodeClient.listen_events`, modelled on the list of raw lines the
socket yields: skip the HTTP response headers, then run the SSE body loop. -/
def listenEvents (loads : String → Option JValue) (lines : List String) : List JValue × StreamEnd :=
  processLines loads (skipHeaders lines)

/-- A concrete stand-in for `json.loads` covering the strings used by the
evaluation witnesses below. -/
def sampleLoads : String → Option JValue := fun s =>
  if s = "\x7b\"type\":\"message.updated\",\"payload\":\x7b\"id\":\"m1\"\x7d\x7d" then
    some (JValue.obj
      [("type", JValue.str "message.updated"),
       ("payload", JValue.obj [("id", JValue.str "m1")])])
  else if s = "\x7b\"a\":1\x7d" then
    some (JValue.obj [("a", JValue.num 1)])
  else if s = "42" then
    some (JValue.num 42)
  else
    none

theorem processLines_data_obj (loads : String → Option JValue) (l : String)
    (rest : List String) (fields : List (String × JValue))
    (hne : l ≠ "") (hp : pyStartsWith (pyStrip l) "data: " = true)
    (hd : loads (pyDropChars (pyStrip l) 6) = some (JValue.obj fields)) :
    processLines loads (l :: rest) =
      (emitEvent fields :: (processLines loads rest).1, (processLines loads rest).2) := by
  simp only [processLines, if_neg hne, hp, if_true, hd]

theorem processLines_data_bad (loads : String → Option JValue) (l : String)
    (rest : List String)
    (hne : l ≠ "") (hp : pyStartsWith (pyStrip l) "data: " = true)
    (hd : loads (pyDropChars (pyStrip l) 6) = none) :
    processLines loads (l :: rest) = processLines loads rest := by
  simp only [processLines, if_neg hne, hp, if_true, hd]

/-- C5: for an event stream whose body holds one malformed data line (its
content fails JSON decoding) between two well-formed data lines,
`listen_events` yields exactly the two decoded events in stream order; the
malformed line is neither emitted nor does it terminate the iteration. -/
theorem listen_events_skips_malformed (loads : String → Option JValue)
    (hdr l1 lb l2 : String) (f1 f2 : List (String × JValue))
    (hhdr : hdr ≠ "\r\n" ∧ hdr ≠ "\n" ∧ hdr ≠ "")
    (h1ne : l1 ≠ "") (h1p : pyStartsWith (pyStrip l1) "data: " = true)
    (h1d : loads (pyDropChars (pyStrip l1) 6) = some (JValue.obj f1))
    (hbne : lb ≠ "") (hbp : pyStartsWith (pyStrip lb) "data: " = true)
    (hbd : loads (pyDropChars (pyStrip lb) 6) = none)
    (h2ne : l2 ≠ "") (h2p : pyStartsWith (pyStrip l2) "data: " = true)
    (h2d : loads (pyDropChars (pyStrip l2) 6) = some (JValue.obj f2)) :
    listenEvents loads [hdr, "\r\n", l1, lb, l2] =
      ([emitEvent f1, emitEvent f2], .disconnected) := by
  obtain ⟨ha, hb, hc⟩ := hhdr
  unfold listenEvents
  rw [show skipHeaders [hdr, "\r\n", l1, lb, l2] = [l1, lb, l2] from by
        simp [skipHeaders, ha, hb, hc]]
  rw [processLines_data_obj loads l1 _ f1 h1ne h1p h1d,
      processLines_data_bad loads lb _ hbne hbp hbd,
      processLines_data_obj loads l2 _ f2 h2ne h2p h2d]
  simp [processLines]

/-- Evaluation of C5 on a concrete stream: headers skipped, then a good line,
a malformed line, and a good payload-carrying line yield exactly two events. -/
theorem listen_events_skips_malformed_witness :
    listenEvents sampleLoads
      ["HTTP/1.1 200 OK\r\n", "\r\n", "data: \x7b\"a\":1\x7d", "data: oops",
       "data: \x7b\"type\":\"message.updated\",\"payload\":\x7b\"id\":\"m1\"\x7d\x7d"] =
      ([JValue.obj [("a", JValue.num 1)], JValue.obj [("id", JValue.str "m1")]],
       .disconnected) := by
  have h := listen_events_skips_malformed sampleLoads "HTTP/1.1 200 OK\r\n"
    "data: \x7b\"a\":1\x7d" "data: oops"
    "data: \x7b\"type\":\"message.updated\",\"payload\":\x7b\"id\":\"m1\"\x7d\x7d"
    [("a", JValue.num 1)]
    [("type", JValue.str "message.updated"),
     ("payload", JValue.obj [("id", JValue.str "m1")])]
    (by decide) (by decide) (by decide) (by rfl) (by decide) (by decide) (by rfl)
    (by decide) (by decide) (by rfl)
  rw [h]
  rfl

/-- C6: a data line decoding to an object with a `payload` field makes
`listen_events` emit only that field's value; a data line decoding to an
object without a `payload` field makes it emit the whole decoded object
unchanged. -/
theorem listen_events_payload_unwrapping (loads : String → Option JValue)
    (l : String) (rest : List String) (fields : List (String × JValue))
    (hne : l ≠ "") (hp : pyStartsWith (pyStrip l) "data: " = true)
    (hd : loads (pyDropChars (pyStrip l) 6) = some (JValue.obj fields)) :
    (∀ p, lookupField fields "payload" = some p →
      (processLines loads (l :: rest)).1 = p :: (processLines loads rest).1) ∧
    (lookupField fields "payload" = none →
      (processLines loads (l :: rest)).1
        = JValue.obj fields :: (processLines loads rest).1) := by
  constructor
  · intro p hpay
    rw [processLines_data_obj loads l rest fields hne hp hd]
    simp [emitEvent, hpay]
  · intro hpay
    rw [processLines_data_obj loads l rest fields hne hp hd]
    simp [emitEvent, hpay]

/-- Evaluation of C6 at the spec's example line: the emitted event is the
unwrapped payload object. -/
theorem listen_events_payload_unwrapping_witness :
    (processLines sampleLoads
      ["data: \x7b\"type\":\"message.updated\",\"payload\":\x7b\"id\":\"m1\"\x7d\x7d"]).1 =
      [JValue.obj [("id", JValue.str "m1")]] := by
  have h := (listen_events_payload_unwrapping sampleLoads
    "data: \x7b\"type\":\"message.updated\",\"payload\":\x7b\"id\":\"m1\"\x7d\x7d" []
    [("type", JValue.str "message.updated"),
     ("payload", JValue.obj [("id", JValue.str "m1")])]
    (by decide) (by decide) (by rfl)).1
    (JValue.obj [("id", JValue.str "m1")]) (by rfl)
  rw [h]
  rfl

/-- C10: a data line whose content decodes as JSON to a non-object value is
not skipped: the `data.get` attribute access raises past the per-line
`except json.JSONDecodeError` handler into the outer handler, which closes
the connection; the stream ends crashed with no further events yielded. -/
theorem listen_events_nonobject_crashes (loads : String → Option JValue)
    (l : String) (rest : List String) (v : JValue)
    (hne : l ≠ "") (hp : pyStartsWith (pyStrip l) "data: " = true)
    (hd : loads (pyDropChars (pyStrip l) 6) = some v) (hv : v.isObj = false) :
    processLines loads (l :: rest) = ([], .crashed) := by
  simp only [processLines, if_neg hne, hp, if_true, hd]
  cases v <;> simp_all [JValue.isObj]

/-- Evaluation of C10 at the line `data: 42`: the stream crashes and the
following well-formed line is never emitted. -/
theorem listen_events_nonobject_crashes_witness :
    processLines sampleLoads ["data: 42", "data: \x7b\"a\":1\x7d"] = ([], .crashed) :=
  listen_events_nonobject_crashes sampleLoads "data: 42" ["data: \x7b\"a\":1\x7d"]
    (JValue.num 42) (by decide) (by decide) (by rfl) (by rfl)

/-- The filesystem and environment facts `_find_opencode_binary` consults:
the result of `shutil.which("opencode")`, the expanded home directory, the
values of `os.environ.get("NVM_BIN", "")` and `os.environ.get("PATH", "")`,
and the `os.path.isfile` / `os.access(..., X_OK)` predicates. -/
structure FsEnv where
  which : Option String
  home : String
  nvmBin : String
  pathEnv : String
  isFile : String → Bool
  isExec : String → Bool

/-- Whether a string's last character is the path separator. -/
def endsWithSlash (s : String) : Bool :=
  match s.data.getLast? with
  | some c => c = '/'
  | none => false

/-- Python `os.path.join(dir, name)` for a relative `name`: an empty first
component gives `name` back, otherwise the components are joined with a
separator unless one is already present. -/
def joinPath (dir name : String) : String :=
  if dir = "" then name
  else if endsWithSlash dir then dir ++ name
  else dir ++ "/" ++ name

/-- Python `str.split(sep)` on the character list: every separator occurrence
cuts, empty fields are kept, and the empty string yields one empty field. -/
def splitChars (sep : Char) : List Char → List (List Char)
  | [] => [[]]
  | c :: rest =>
    let r := splitChars sep rest
    if c = sep then [] :: r
    else
      match r with
      | [] => [[c]]
      | g :: gs => (c :: g) :: gs

/-- Python `s.split(sep)` for a single-character separator, as used with
`os.pathsep` on line 104. -/
def pySplit (s : String) (sep : Char) : List String :=
  (splitChars sep s.data).map fun g => ⟨g⟩

/-- The hard-coded fallback candidate list of `_find_opencode_binary`
(lines 82-100 of `opencode_client.py`), in source order. -/
def fallbackCandidates (env : FsEnv) : List String :=
  [ env.home ++ "/.nvm/versions/node/v22.7.0/bin/opencode",
    env.home ++ "/.nvm/versions/node/v20.0.0/bin/opencode",
    env.home ++ "/.nvm/versions/node/v21.0.0/bin/opencode",
    joinPath env.nvmBin "opencode",
    "/usr/local/bin/opencode",
    env.home ++ "/.npm-global/bin/opencode",
    "/opt/homebrew/bin/opencode",
    env.home ++ "/.bun/bin/opencode",
    env.home ++ "/.cargo/bin/opencode",
    env.home ++ "/.local/bin/opencode" ]

/-- The loop of lines 103-107: every directory of the inherited PATH joined
with the binary name is appended unless that exact string is already a
candidate. -/
def addPathCandidates (cands : List String) : List String → List String
  | [] => cands
  | dir :: rest =>
    let c := joinPath dir "opencode"
    if c ∈ cands then addPathCandidates cands rest
    else addPathCandidates (cands ++ [c]) rest

/-- The full candidate list searched by `_find_opencode_binary` when
`shutil.which` fails: hard-coded locations first, then PATH-derived ones. -/
def allBinaryCandidates (env : FsEnv) : List String :=
  addPathCandidates (fallbackCandidates env) (pySplit env.pathEnv ':')

/-- The per-candidate test of line 110: truthy, exists as a file, and is
executable. -/
def goodCandidate (env : FsEnv) (p : String) : Bool :=
  p != "" && env.isFile p && env.isExec p

/-- The fallback search of `_find_opencode_binary` (lines 80-115): first
candidate passing `goodCandidate`, else the bare name `"opencode"`. -/
def searchCandidates (env : FsEnv) : String :=
  match (allBinaryCandidates env).find? (goodCandidate env) with
  | some p => p
  | none => "opencode"

/-- `OpenCodeServer._find_opencode_binary` (lines 66-115): use the
`shutil.which` result when truthy, otherwise search the candidate list. -/
def findOpencodeBinary (env : FsEnv) : String :=
  match env.which with
  | some p => if p = "" then searchCandidates env else p
  | none => searchCandidates env

/-- A list whose predicate holds at exactly one element is found at that
element by `find?`. -/
theorem find_of_unique {α : Type} (pred : α → Bool) (l : List α) (t : α)
    (ht : t ∈ l) (h : ∀ q ∈ l, pred q = true ↔ q = t) : l.find? pred = some t := by
  induction l with
  | nil => cases ht
  | cons a rest ih =>
    by_cases hpa : pred a = true
    · have hat : a = t := (h a (by simp)).1 hpa
      rw [List.find?_cons_of_pos _ hpa, hat]
    · have hat : a ≠ t := fun he => hpa ((h a (by simp)).2 he)
      have ht' : t ∈ rest := by
        rcases List.mem_cons.1 ht with h1 | h1
        · exact absurd h1.symm hat
        · exact h1
      rw [List.find?_cons_of_neg _ hpa]
      exact ih ht' fun q hq => h q (List.mem_cons_of_mem _ hq)

/-- C7: binary location is total: a truthy `shutil.which` result is returned
immediately; with `which` failing and exactly one candidate on the list that
is truthy, an existing file, and executable, that exact candidate is
returned; and with no candidate passing anywhere, the bare name `"opencode"`
is returned. -/
theorem find_binary_fallback_order (env : FsEnv) :
    (∀ p, env.which = some p → p ≠ "" → findOpencodeBinary env = p) ∧
    (env.which = none →
      ∀ t ∈ allBinaryCandidates env,
        (∀ q ∈ allBinaryCandidates env, goodCandidate env q = true ↔ q = t) →
        findOpencodeBinary env = t) ∧
    (env.which = none →
      (∀ q ∈ allBinaryCandidates env, goodCandidate env q = false) →
      findOpencodeBinary env = "opencode") := by
  refine ⟨fun p hp hne => ?_, fun hw t htmem huniq => ?_, fun hw hnone => ?_⟩
  · simp [findOpencodeBinary, hp, hne]
  · simp only [findOpencodeBinary, hw]
    rw [searchCandidates, find_of_unique (goodCandidate env) _ t htmem huniq]
  · simp only [findOpencodeBinary, hw]
    rw [searchCandidates,
      List.find?_eq_none.2 fun x hx hgx => by simp [hnone x hx] at hgx]

/-- Evaluation of C7: with `which` failing and only `/opt/homebrew/bin/opencode`
existing and executable, that path is returned; with nothing on disk, the bare
name is returned; with `which` succeeding its result is returned. -/
theorem find_binary_fallback_order_witness :
    findOpencodeBinary
      { which := none, home := "/h", nvmBin := "", pathEnv := "",
        isFile := fun p => p == "/opt/homebrew/bin/opencode",
        isExec := fun p => p == "/opt/homebrew/bin/opencode" }
      = "/opt/homebrew/bin/opencode" ∧
    findOpencodeBinary
      { which := none, home := "/h", nvmBin := "", pathEnv := "",
        isFile := fun _ => false, isExec := fun _ => false }
      = "opencode" ∧
    findOpencodeBinary
      { which := some "/usr/bin/opencode", home := "/h", nvmBin := "",
        pathEnv := "", isFile := fun _ => false, isExec := fun _ => false }
      = "/usr/bin/opencode" := by
  refine ⟨?_, ?_, ?_⟩
  · exact (find_binary_fallback_order _).2.1 rfl "/opt/homebrew/bin/opencode"
      (by decide) (by decide)
  · exact (find_binary_fallback_order _).2.2 rfl (by decide)
  · exact (find_binary_fallback_order _).1 "/usr/bin/opencode" rfl (by decide)

/-- The environment facts `_resolve_workdir` consults: the four environment
variables (None when unset), the `os.path.isdir` predicate, and the
install-relative fallback path `abspath(join(dirname(__file__), "..", ".."))`,
an external path computation represented as a field. -/
structure WdEnv where
  marsWorkdir : Option String
  opencodeWorkdir : Option String
  marsLaunchCwd : Option String
  pwd : Option String
  fallback : String
  isDir : String → Bool

/-- The per-candidate test of line 53: the string is truthy and names an
existing directory. -/
def truthyDir (env : WdEnv) (p : String) : Bool :=
  p != "" && env.isDir p

/-- `OpenCodeServer._resolve_workdir` (lines 37-64): first truthy existing
directory among `MARS_WORKDIR`, `OPENCODE_WORKDIR`, `MARS_LAUNCH_CWD`, `PWD`
(unset variables skipped), then the install-relative fallback if it is a
directory, else None. -/
def resolveWorkdir (env : WdEnv) : Option String :=
  match ([env.marsWorkdir, env.opencodeWorkdir, env.marsLaunchCwd, env.pwd].filterMap id).find?
      (truthyDir env) with
  | some p => some p
  | none => if env.isDir env.fallback then some env.fallback else none

/-- The resolver's candidates in consultation order, with unset variables
dropped and the install-relative fallback last. -/
def workdirCandidates (env : WdEnv) : List String :=
  ([env.marsWorkdir, env.opencodeWorkdir, env.marsLaunchCwd, env.pwd].filterMap id)
    ++ [env.fallback]

/-- Pointwise equal predicates find the same element. -/
theorem find_congr {α : Type} (p q : α → Bool) (l : List α)
    (h : ∀ x ∈ l, p x = q x) : l.find? p = l.find? q := by
  induction l with
  | nil => rfl
  | cons a rest ih =>
    have ha := h a (by simp)
    have htail := ih fun x hx => h x (List.mem_cons_of_mem _ hx)
    by_cases hqa : q a = true
    · rw [List.find?_cons_of_pos _ hqa, List.find?_cons_of_pos _ (ha ▸ hqa)]
    · rw [List.find?_cons_of_neg _ hqa, List.find?_cons_of_neg _ fun hc => hqa (ha ▸ hc)]
      exact htail

/-- C8: working-directory resolution consults its candidates in the fixed
order (CLI override, server-specific override, captured launch directory,
inherited PWD, install-relative fallback) and returns the first that exists
as a directory; it returns None only when no candidate is a directory.  The
hypothesis records that `os.path.isdir("")` is false on a real system. -/
theorem resolve_workdir_first_dir (env : WdEnv)
    (hemp : env.isDir "" = false) :
    resolveWorkdir env = (workdirCandidates env).find? env.isDir ∧
    (resolveWorkdir env = none → ∀ p ∈ workdirCandidates env, env.isDir p = false) := by
  have hpt : ∀ x ∈ ([env.marsWorkdir, env.opencodeWorkdir, env.marsLaunchCwd,
      env.pwd].filterMap id), truthyDir env x = env.isDir x := by
    intro x _
    by_cases hxe : x = ""
    · subst hxe; simp [truthyDir, hemp]
    · simp [truthyDir, hxe]
  have hmain : resolveWorkdir env = (workdirCandidates env).find? env.isDir := by
    rw [workdirCandidates, List.find?_append, resolveWorkdir,
      find_congr (truthyDir env) env.isDir _ hpt]
    cases hf : ([env.marsWorkdir, env.opencodeWorkdir, env.marsLaunchCwd,
        env.pwd].filterMap id).find? env.isDir with
    | some p => simp [Option.or]
    | none =>
      simp only [Option.none_or]
      cases hdd : env.isDir env.fallback <;> simp [List.find?, hdd]
  refine ⟨hmain, fun hnone => ?_⟩
  rw [hmain] at hnone
  intro p hp
  simpa using List.find?_eq_none.1 hnone p hp

/-- Evaluation of C8: with only `PWD` set to an existing directory, that
directory is returned; it is the first existing-directory candidate. -/
theorem resolve_workdir_first_dir_witness :
    resolveWorkdir
      { marsWorkdir := none, opencodeWorkdir := none, marsLaunchCwd := some "/gone",
        pwd := some "/home/u/proj", fallback := "/app",
        isDir := fun p => p == "/home/u/proj" }
      = some "/home/u/proj" := by
  have h := (resolve_workdir_first_dir
    { marsWorkdir := none, opencodeWorkdir := none, marsLaunchCwd := some "/gone",
      pwd := some "/home/u/proj", fallback := "/app",
      isDir := fun p => p == "/home/u/proj" }
    (by decide)).1
  rw [h]
  rfl

/-- `OpenCodeConfig`: host and port of the server connection. -/
structure OpenCodeConfig where
  host : String
  port : Nat
deriving DecidableEq, Repr

/-- The supervisor's mutable fields: the owned process handle (`_process`,
a pid when owned) and the cached `_running` flag. -/
structure ServerState where
  process : Option Nat
  running : Bool
deriving DecidableEq, Repr

/-- One observation of `GET /config`: the HTTP status, or `none` when the
request raised (connection refused, timeout, ...). -/
structure ProbeEnv where
  configStatus : Option Nat
deriving DecidableEq, Repr

/-- `OpenCodeServer._check_connectivity` (lines 244-250): true exactly when
the `GET /config` request returns status 200; any exception yields false. -/
def checkConnectivity (env : ProbeEnv) : Bool :=
  match env.configStatus with
  | some code => code == 200
  | none => false

/-- `OpenCodeServer.is_running` (lines 252-254): a fresh live probe; the
cached state is not consulted. -/
def is_running (_st : ServerState) (env : ProbeEnv) : Bool :=
  checkConnectivity env

/-- The external interactions `start` makes beyond `_resolve_workdir`:
the entry connectivity probe, the `GET /project/current` response (status and
reported `path`, `none` when the request raised), the external `os.path.normpath`
function, the outcome of `subprocess.Popen` (`none` = `FileNotFoundError`,
otherwise the child's pid), and the connectivity probe observed at each
readiness-polling attempt. -/
structure StartEnv where
  wd : WdEnv
  fs : FsEnv
  entryProbe : ProbeEnv
  projectResp : Option (Nat × String)
  normpath : String → String
  spawnResult : Option Nat
  pollProbe : Nat → ProbeEnv

/-- `OpenCodeServer._check_workdir_matches` (lines 117-135): no desired
directory (None or empty) accepts any running server; otherwise the live
server's reported project path must normalize equal to the normalized desired
path, with a failed or non-200 `GET /project/current` counting as a mismatch. -/
def checkWorkdirMatches (env : StartEnv) (desired : Option String) : Bool :=
  match desired with
  | none => true
  | some d =>
    if d = "" then true
    else
      match env.projectResp with
      | none => false
      | some (status, cur) =>
        if status == 200 then
          env.normpath d == (if cur != "" then env.normpath cur else "")
        else false

/-- Observable external actions of the supervisor: killing whatever owns the
port (`_kill_external_server`), spawning the server process with its command
line and working directory, and terminating or force-killing the owned
process in `stop`. -/
inductive Action where
  | killOccupant : Action
  | spawn (cmd : List String) (cwd : Option String) : Action
  | terminateOwned (pid : Nat) : Action
  | forceKillOwned (pid : Nat) : Action
deriving DecidableEq, Repr

/-- Whether an action is a process spawn. -/
def Action.isSpawn : Action → Bool
  | .spawn _ _ => true
  | _ => false

/-- Number of process spawns in a trace. -/
def spawnCount (acts : List Action) : Nat :=
  acts.countP Action.isSpawn

/-- The launch command of lines 194-203:
`<binary> serve --port <port> --hostname <host> [<workdir>]`. -/
def buildCmd (bin : String) (port : Nat) (host : String) (workdir : Option String) :
    List String :=
  [bin, "serve", "--port", toString port, "--hostname", host] ++
    (match workdir with
     | some w => [w]
     | none => [])

/-- The launch-and-poll tail of `start` (lines 182-230): locate the binary,
spawn it (a `FileNotFoundError` returns false with the state unchanged),
record the handle, then poll connectivity up to 30 attempts; first success
returns true with `_running` set, exhaustion returns false. -/
def launchServer (cfg : OpenCodeConfig) (env : StartEnv) (st : ServerState)
    (acts : List Action) : Bool × ServerState × List Action :=
  let workdir := resolveWorkdir env.wd
  let bin := findOpencodeBinary env.fs
  let cmd := buildCmd bin cfg.port cfg.host workdir
  match env.spawnResult with
  | none => (false, st, acts)
  | some pid =>
    let st1 : ServerState := { st with process := some pid }
    let acts1 := acts ++ [Action.spawn cmd workdir]
    match (List.range 30).find? (fun k => checkConnectivity (env.pollProbe k)) with
    | some _ => (true, { st1 with running := true }, acts1)
    | none => (false, st1, acts1)

/-- `OpenCodeServer.start` (lines 161-230): resolve the desired directory;
if something answers on the port, adopt it when the workdir matches (return
true, no actions), otherwise kill the occupant; then return true early if
`_running` is already set, else launch and poll. -/
def start (cfg : OpenCodeConfig) (env : StartEnv) (st : ServerState) :
    Bool × ServerState × List Action :=
  let desired := resolveWorkdir env.wd
  if checkConnectivity env.entryProbe then
    if checkWorkdirMatches env desired then
      (true, { st with running := true }, [])
    else
      if st.running then (true, st, [Action.killOccupant])
      else launchServer cfg env st [Action.killOccupant]
  else
    if st.running then (true, st, [])
    else launchServer cfg env st []

/-- The external fact `stop` depends on: whether the terminated process exits
within the 5-second `wait` (otherwise it is force-killed). -/
structure StopEnv where
  gracefulExit : Bool
deriving DecidableEq, Repr

/-- `OpenCodeServer.stop` (lines 232-242): when a process handle is owned,
terminate it, wait up to 5 seconds, force-kill on timeout, clear the handle
and the running flag; always return true.  No other interaction happens. -/
def stop (env : StopEnv) (st : ServerState) : Bool × ServerState × List Action :=
  match st.process with
  | none => (true, st, [])
  | some pid =>
    let acts :=
      if env.gracefulExit then [Action.terminateOwned pid]
      else [Action.terminateOwned pid, Action.forceKillOwned pid]
    (true, { process := none, running := false }, acts)

/-- The default connection configuration of the client. -/
def cfg0 : OpenCodeConfig := { host := "127.0.0.1", port := 4096 }

/-- The supervisor's initial state: no owned process, not running. -/
def st0 : ServerState := { process := none, running := false }

/-- A world with no workdir candidates: every variable unset and nothing a
directory, so resolution yields None. -/
def noWd : WdEnv :=
  { marsWorkdir := none, opencodeWorkdir := none, marsLaunchCwd := none,
    pwd := none, fallback := "/app", isDir := fun _ => false }

/-- A world where `MARS_WORKDIR` is `/b` and `/b` exists. -/
def bWd : WdEnv :=
  { marsWorkdir := some "/b", opencodeWorkdir := none, marsLaunchCwd := none,
    pwd := none, fallback := "/app", isDir := fun p => p == "/b" }

/-- A filesystem where `shutil.which` finds the binary directly. -/
def whichFs : FsEnv :=
  { which := some "/usr/bin/opencode", home := "/h", nvmBin := "",
    pathEnv := "", isFile := fun _ => false, isExec := fun _ => false }

/-- A world in which a matching server is already reachable: the entry probe
answers 200 and no desired directory resolves. -/
def adoptEnv : StartEnv :=
  { wd := noWd, fs := whichFs, entryProbe := ⟨some 200⟩, projectResp := none,
    normpath := id, spawnResult := none, pollProbe := fun _ => ⟨some 200⟩ }

/-- A world in which the occupant of the port reports `/a` while the desired
directory resolves to `/b`, and spawning succeeds. -/
def mismatchEnv : StartEnv :=
  { wd := bWd, fs := whichFs, entryProbe := ⟨some 200⟩,
    projectResp := some (200, "/a"), normpath := id, spawnResult := some 11,
    pollProbe := fun _ => ⟨some 200⟩ }

/-- The mismatch world of `mismatchEnv` but with the binary missing, so
`subprocess.Popen` raises `FileNotFoundError`. -/
def mismatchEnvNoBin : StartEnv :=
  { mismatchEnv with spawnResult := none }

/-- A supervisor state whose cached running flag is set (a previous `start`
adopted or launched a server) with no owned handle. -/
def stRun : ServerState := { process := none, running := true }

/-- A world where nothing answers the port and the binary cannot be executed. -/
def binMissingEnv : StartEnv :=
  { wd := noWd, fs := whichFs, entryProbe := ⟨none⟩, projectResp := none,
    normpath := id, spawnResult := none, pollProbe := fun _ => ⟨none⟩ }

/-- A world where nothing answers the port, the spawn succeeds, but the
server never becomes reachable within the 30 polling attempts. -/
def timeoutEnv : StartEnv :=
  { binMissingEnv with spawnResult := some 3 }

/-- Adoption: when the entry probe answers and the workdir check passes,
`start` returns true, sets `_running`, and performs no external action. -/
theorem start_adopt (cfg : OpenCodeConfig) (env : StartEnv) (st : ServerState)
    (halive : checkConnectivity env.entryProbe = true)
    (hmatch : checkWorkdirMatches env (resolveWorkdir env.wd) = true) :
    start cfg env st = (true, { st with running := true }, []) := by
  simp [start, halive, hmatch]

/-- Any single `start` call spawns at most one process. -/
theorem start_spawnCount_le_one (cfg : OpenCodeConfig) (env : StartEnv)
    (st : ServerState) : spawnCount (start cfg env st).2.2 ≤ 1 := by
  have hl : ∀ acts, spawnCount acts = 0 →
      spawnCount (launchServer cfg env st acts).2.2 ≤ 1 := by
    intro acts ha
    simp only [launchServer]
    cases env.spawnResult with
    | none => simp [ha]
    | some pid =>
      have ha' : List.countP Action.isSpawn acts = 0 := ha
      cases (List.range 30).find? (fun k => checkConnectivity (env.pollProbe k)) with
      | some k =>
        simp [spawnCount, List.countP_append, List.countP_cons, Action.isSpawn]
        intro a hAa
        have hfa := List.countP_eq_zero.1 ha' a hAa
        simpa [Action.isSpawn] using hfa
      | none =>
        simp [spawnCount, List.countP_append, List.countP_cons, Action.isSpawn]
        intro a hAa
        have hfa := List.countP_eq_zero.1 ha' a hAa
        simpa [Action.isSpawn] using hfa
  by_cases h1 : checkConnectivity env.entryProbe = true
  · by_cases h2 : checkWorkdirMatches env (resolveWorkdir env.wd) = true
    · simp [start, h1, h2, spawnCount]
    · by_cases h3 : st.running = true
      · simp [start, h1, h2, h3, spawnCount, List.countP_cons, Action.isSpawn]
      · have hgoal := hl [Action.killOccupant] (by rfl)
        simpa [start, h1, h2, h3] using hgoal
  · by_cases h3 : st.running = true
    · simp [start, h1, h3, spawnCount]
    · have hgoal := hl [] (by rfl)
      simpa [start, h1, h3] using hgoal

/-- C1: with the entry probe succeeding and the reported project directory
matching the resolved desired directory (or no desired directory resolved),
`start` adopts the running instance: it returns success, marks the state
running, and performs no external action, so two consecutive `start` calls
with no intervening `stop` spawn at most one process in total. -/
theorem start_idempotent_adopts (cfg : OpenCodeConfig) (env1 env2 : StartEnv)
    (st : ServerState)
    (halive : checkConnectivity env2.entryProbe = true)
    (hmatch : checkWorkdirMatches env2 (resolveWorkdir env2.wd) = true) :
    (start cfg env2 (start cfg env1 st).2.1).1 = true ∧
    (start cfg env2 (start cfg env1 st).2.1).2.1.running = true ∧
    (start cfg env2 (start cfg env1 st).2.1).2.2 = [] ∧
    spawnCount ((start cfg env1 st).2.2 ++
      (start cfg env2 (start cfg env1 st).2.1).2.2) ≤ 1 := by
  have h2 := start_adopt cfg env2 (start cfg env1 st).2.1 halive hmatch
  refine ⟨by rw [h2], by rw [h2], by rw [h2], ?_⟩
  rw [h2]
  simpa [spawnCount] using start_spawnCount_le_one cfg env1 st

/-- Evaluation of C1: two consecutive `start` calls against an already
reachable matching server both succeed, the second performs no action, and
no spawn happens at all. -/
theorem start_idempotent_adopts_witness :
    (start cfg0 adoptEnv (start cfg0 adoptEnv st0).2.1).1 = true ∧
    (start cfg0 adoptEnv (start cfg0 adoptEnv st0).2.1).2.1.running = true ∧
    (start cfg0 adoptEnv (start cfg0 adoptEnv st0).2.1).2.2 = [] ∧
    spawnCount ((start cfg0 adoptEnv st0).2.2 ++
      (start cfg0 adoptEnv (start cfg0 adoptEnv st0).2.1).2.2) ≤ 1 :=
  start_idempotent_adopts cfg0 adoptEnv adoptEnv st0 (by rfl) (by rfl)

/-- C2 fails as stated: at `mismatchEnv`/`stRun` the probe succeeds and the
reported directory `/a` differs from the desired `/b`, yet `start` only kills
the occupant and returns success without launching anything (the cached
running flag short-circuits); and at `mismatchEnvNoBin`/`st0` the spawn
raises `FileNotFoundError`, so again no process is launched. -/
theorem start_mismatch_counterexample :
    (checkConnectivity mismatchEnv.entryProbe = true ∧
     resolveWorkdir mismatchEnv.wd = some "/b" ∧
     checkWorkdirMatches mismatchEnv (resolveWorkdir mismatchEnv.wd) = false) ∧
    start cfg0 mismatchEnv stRun = (true, stRun, [Action.killOccupant]) ∧
    spawnCount (start cfg0 mismatchEnv stRun).2.2 = 0 ∧
    checkWorkdirMatches mismatchEnvNoBin (resolveWorkdir mismatchEnvNoBin.wd) = false ∧
    start cfg0 mismatchEnvNoBin st0 = (false, st0, [Action.killOccupant]) ∧
    spawnCount (start cfg0 mismatchEnvNoBin st0).2.2 = 0 :=
  ⟨⟨rfl, rfl, rfl⟩, rfl, rfl, rfl, rfl, rfl⟩

/-- C2 (amended): with the supervisor not already marked running and the
binary spawnable, a succeeding probe with a mismatched reported directory
makes `start` kill the occupant (best-effort) and then spawn a new server
process carrying the desired directory as its workdir argument; `start`
returns success exactly when some of the 30 readiness polls answers with a
200 — it performs no further check of which instance answered or of the
directory that instance reports. -/
theorem start_mismatch_restarts (cfg : OpenCodeConfig) (env : StartEnv)
    (st : ServerState) (d : String) (pid : Nat)
    (hfresh : st.running = false)
    (halive : checkConnectivity env.entryProbe = true)
    (hdes : resolveWorkdir env.wd = some d)
    (hmis : checkWorkdirMatches env (resolveWorkdir env.wd) = false)
    (hspawn : env.spawnResult = some pid) :
    (start cfg env st).2.2 =
      [Action.killOccupant,
       Action.spawn (buildCmd (findOpencodeBinary env.fs) cfg.port cfg.host (some d))
         (some d)] ∧
    ((start cfg env st).1 = true ↔
      ∃ k, k < 30 ∧ checkConnectivity (env.pollProbe k) = true) := by
  have hstart : start cfg env st = launchServer cfg env st [Action.killOccupant] := by
    simp [start, halive, hmis, hfresh]
  rw [hstart]
  simp only [launchServer, hspawn, hdes]
  cases hfind : (List.range 30).find? (fun k => checkConnectivity (env.pollProbe k)) with
  | some k =>
    refine ⟨rfl, ⟨fun _ => ⟨k, ?_, ?_⟩, fun _ => rfl⟩⟩
    · exact List.mem_range.1 (List.mem_of_find?_eq_some hfind)
    · have hpk := List.find?_some hfind
      simpa using hpk
  | none =>
    refine ⟨rfl, ⟨fun hc => by simp at hc, ?_⟩⟩
    rintro ⟨k, hk, hpk⟩
    have hno := List.find?_eq_none.1 hfind k (List.mem_range.2 hk)
    simp [hpk] at hno

/-- Evaluation of C2 (amended): from the initial state against the occupant
reporting `/a`, `start` kills it and spawns with `/b`, and it succeeds since
the polls answer. -/
theorem start_mismatch_restarts_witness :
    (start cfg0 mismatchEnv st0).2.2 =
      [Action.killOccupant,
       Action.spawn (buildCmd (findOpencodeBinary mismatchEnv.fs) cfg0.port cfg0.host
         (some "/b")) (some "/b")] ∧
    ((start cfg0 mismatchEnv st0).1 = true ↔
      ∃ k, k < 30 ∧ checkConnectivity (mismatchEnv.pollProbe k) = true) :=
  start_mismatch_restarts cfg0 mismatchEnv st0 "/b" 11 rfl rfl rfl rfl rfl

/-- The supervisor state used by the `stop` scenarios: an owned handle. -/
def stOwned : ServerState := { process := some 7, running := true }

/-- A stop world where the terminated process exits within the 5-second wait. -/
def stopEnvG : StopEnv := { gracefulExit := true }

/-- C3 fails as stated: `stop` never invokes the port-ownership arbiter —
with an owned handle it only terminates that process, and with no handle it
does nothing at all, though it returns success in both cases. -/
theorem stop_no_arbiter_counterexample :
    stop stopEnvG stOwned =
      (true, { process := none, running := false }, [Action.terminateOwned 7]) ∧
    Action.killOccupant ∉ (stop stopEnvG stOwned).2.2 ∧
    stop stopEnvG st0 = (true, st0, []) ∧
    Action.killOccupant ∉ (stop stopEnvG st0).2.2 :=
  ⟨rfl, by decide, rfl, by decide⟩

/-- C3 (amended): every `stop` call returns success and leaves no owned
handle; it terminates an owned process (with the follow-up force-kill when
the wait expires) but never invokes the port-ownership arbiter, so an
out-of-band server instance is not terminated; with no owned handle it is a
no-op. -/
theorem stop_total_no_arbiter (env : StopEnv) (st : ServerState) :
    (stop env st).1 = true ∧
    (stop env st).2.1.process = none ∧
    Action.killOccupant ∉ (stop env st).2.2 ∧
    (∀ pid, st.process = some pid → Action.terminateOwned pid ∈ (stop env st).2.2) ∧
    (st.process = none → stop env st = (true, st, [])) := by
  cases hp : st.process with
  | none =>
    refine ⟨?_, ?_, ?_, ?_, ?_⟩ <;> simp [stop, hp]
  | some pid =>
    refine ⟨?_, ?_, ?_, ?_, ?_⟩ <;> cases hg : env.gracefulExit <;> simp [stop, hp, hg]

/-- Evaluation of C3 (amended) at an owned handle: success, handle cleared,
the owned process terminated, and no arbiter invocation. -/
theorem stop_total_no_arbiter_witness :
    (stop stopEnvG { process := some 7, running := true }).1 = true ∧
    (stop stopEnvG { process := some 7, running := true }).2.1.process = none ∧
    Action.killOccupant ∉ (stop stopEnvG { process := some 7, running := true }).2.2 ∧
    Action.terminateOwned 7 ∈ (stop stopEnvG { process := some 7, running := true }).2.2 := by
  have h := stop_total_no_arbiter stopEnvG { process := some 7, running := true }
  exact ⟨h.1, h.2.1, h.2.2.1, h.2.2.2.1 7 rfl⟩

/-- C4 fails as stated: a missing binary and a startup timeout both make
`start` return the bare value `false`; the two failures are the same value at
the `start()` boundary, not distinct error classes. -/
theorem start_failure_same_value_counterexample :
    binMissingEnv.spawnResult = none ∧
    timeoutEnv.spawnResult = some 3 ∧
    (∀ k, checkConnectivity (timeoutEnv.pollProbe k) = false) ∧
    (start cfg0 binMissingEnv st0).1 = false ∧
    (start cfg0 timeoutEnv st0).1 = false ∧
    (start cfg0 binMissingEnv st0).1 = (start cfg0 timeoutEnv st0).1 :=
  ⟨rfl, rfl, fun _ => rfl, rfl, by decide, by decide⟩

/-- C4 (amended): `start` returns the same value `false` both when
`subprocess.Popen` raises `FileNotFoundError` and when the spawned process
never answers within the 30-attempt budget; callers cannot distinguish the
two failures from the return value. -/
theorem start_failures_indistinguishable (cfg : OpenCodeConfig)
    (envB envT : StartEnv) (stB stT : ServerState) (pid : Nat)
    (hBalive : checkConnectivity envB.entryProbe = false) (hBrun : stB.running = false)
    (hBspawn : envB.spawnResult = none)
    (hTalive : checkConnectivity envT.entryProbe = false) (hTrun : stT.running = false)
    (hTspawn : envT.spawnResult = some pid)
    (hTpoll : ∀ k, checkConnectivity (envT.pollProbe k) = false) :
    (start cfg envB stB).1 = false ∧ (start cfg envT stT).1 = false ∧
    (start cfg envB stB).1 = (start cfg envT stT).1 := by
  have hB : (start cfg envB stB).1 = false := by
    simp [start, hBalive, hBrun, launchServer, hBspawn]
  have hT : (start cfg envT stT).1 = false := by
    have hfind : (List.range 30).find?
        (fun k => checkConnectivity (envT.pollProbe k)) = none :=
      List.find?_eq_none.2 fun k _ => by simp [hTpoll k]
    simp [start, hTalive, hTrun, launchServer, hTspawn, hfind]
  exact ⟨hB, hT, hB.trans hT.symm⟩

/-- Evaluation of C4 (amended) at the two concrete failure worlds. -/
theorem start_failures_indistinguishable_witness :
    (start cfg0 binMissingEnv st0).1 = false ∧
    (start cfg0 timeoutEnv st0).1 = false ∧
    (start cfg0 binMissingEnv st0).1 = (start cfg0 timeoutEnv st0).1 :=
  start_failures_indistinguishable cfg0 binMissingEnv timeoutEnv st0 st0 3
    rfl rfl rfl rfl rfl rfl (fun _ => rfl)

/-- C9: `is_running` returns exactly the result of a fresh connectivity probe
(true precisely when `GET /config` answers 200) and is independent of the
cached supervisor state. -/
theorem is_running_live_probe (env : ProbeEnv) (st st' : ServerState) :
    is_running st env = checkConnectivity env ∧
    is_running st env = is_running st' env ∧
    (is_running st env = true ↔ env.configStatus = some 200) := by
  refine ⟨rfl, rfl, ?_⟩
  cases h : env.configStatus with
  | none => simp [is_running, checkConnectivity, h]
  | some code => simp [is_running, checkConnectivity, h]

end Mars
